import Mathlib

/-!
Verification development for the Link-Checker repository.

This file gives a shallow embedding of the resilient command-delivery and
verification-fallback subsystem of the repository:

* `src/services/geminiService.ts` — the verdict client `verifyUrlWithAI`,
  which walks an ordered list of backend endpoints with a per-attempt
  timeout and returns a uniform `VerificationResult` even under total
  failure;
* the background script (`src/unnamed/part_003`) — `safeSendMessage`
  (retrying command delivery with linear backoff and a one-time injection
  nudge), `sendWithFrameFallback`, `sendStartWithFastRetry`,
  `ensureContentScriptInjected`, and the context-menu orchestrator;
* the older background variant (`src/unnamed/part_001`) with its own
  orchestrator;
* the content script guard (`src/content.js`, `initShieldContentScript`).

Asynchronous JavaScript is embedded as pure state passing: the behaviour of
the external world (each endpoint's HTTP answer, the outcome of each
`chrome.tabs.sendMessage` call, the outcome of each script injection) is an
explicit input function, and exceptions are `Except` values / `Option`
failures.  Wall-clock sleeps are recorded in traces rather than performed.
-/

/-! ### JavaScript string primitives

The background script classifies `chrome.runtime.lastError` messages with
`String.prototype.includes`, and the orchestrator guards on
`String.prototype.startsWith`.  We embed both directly on the character
lists underlying `String`. -/

/-- JS `haystack.startsWith(needle)` on character lists: first argument is
the haystack, second the needle. -/
def startsWithList : List Char → List Char → Bool
  | _, [] => true
  | [], _ :: _ => false
  | a :: as, b :: bs => a == b && startsWithList as bs

/-- JS `haystack.includes(needle)`: `needle` is the first argument. -/
def containsList (needle : List Char) : List Char → Bool
  | [] => needle.isEmpty
  | c :: rest => startsWithList (c :: rest) needle || containsList needle rest

/-- JS `haystack.includes(needle)` on `String`. -/
def strContains (haystack needle : String) : Bool :=
  containsList needle.toList haystack.toList

/-- JS `s.startsWith(p)` on `String`. -/
def jsStartsWith (s p : String) : Bool :=
  startsWithList s.toList p.toList

/-- JS truthiness fallback `v || dflt` for a string-or-absent value: the
field contributes its own value exactly when it is present and non-empty
(a present empty string is falsy in JavaScript). -/
def jsStringOr (v : Option String) (dflt : String) : String :=
  match v with
  | none => dflt
  | some s => if s = "" then dflt else s

/-- JS truthiness of an optional string (`!v` is `false` iff `v` is a
non-empty string): used for `info.linkUrl` and `tab.url` guards. -/
def jsTruthyStr (v : Option String) : Bool :=
  match v with
  | none => false
  | some s => !(s == "")

/-- JS truthiness of an optional number (`tab?.id`): `0` is falsy. -/
def jsTruthyNat (v : Option Nat) : Bool :=
  match v with
  | none => false
  | some n => !(n == 0)

/-! ### Verdict client (`src/services/geminiService.ts`)

`verifyUrlWithAI` posts `{ url }` to each of `BACKEND_URLS` in order (each
attempt bounded by `BACKEND_TIMEOUT_MS` via an `AbortController`), and
returns the first response that has a success status and a JSON body,
applying JS `||` fallbacks to the `verdict` and `reason` fields.  If every
endpoint fails it returns the fixed fallback result.

The observable behaviour of one endpoint is:

* `fetchFailure` — the `fetch` promise rejected (connection failure, or the
  timeout fired and aborted the request);
* `httpResponse ok body` — a response arrived; `ok` is `response.ok`
  (success status), and `body` is `some b` when `response.json()` resolves
  to a value whose `verdict` / `reason` property reads succeed (fields
  modelled as string-or-absent), `none` when the body is unparseable (or
  `null`, whose property access throws).

The string values of the `SafetyVerdict` enum (`types.ts`, not part of the
sources) are fixed by their uses in `src/content.js`
(`verdict === 'SAFE' / 'SUSPICIOUS' / 'DANGER'`, default `'UNKNOWN'`) and
spec §6. -/

/-- Parsed JSON body of a backend response: the two fields the client
reads.  `none` models a missing (or non-string falsy) field. -/
structure ResponseBody where
  verdict : Option String
  reason : Option String
deriving DecidableEq

/-- Observable outcome of one endpoint attempt (see module comment). -/
inductive EndpointOutcome where
  | fetchFailure : EndpointOutcome
  | httpResponse (ok : Bool) (body : Option ResponseBody) : EndpointOutcome
deriving DecidableEq

/-- The result record returned by `verifyUrlWithAI`.  `timestamp` stands
for `Date.now()` at return time, supplied as an explicit `now` input. -/
structure VerificationResult where
  url : String
  verdict : String
  reason : String
  timestamp : Nat
deriving DecidableEq

/-- The ordered endpoint list `BACKEND_URLS` of `geminiService.ts`. -/
def BACKEND_URLS : List String :=
  ["http://127.0.0.1:8000/analyze", "http://localhost:8000/analyze"]

/-- `BACKEND_TIMEOUT_MS` of `geminiService.ts`. -/
def BACKEND_TIMEOUT_MS : Nat := 8000

/-- The reason string of the total-failure fallback result (the template
literal interpolates `BACKEND_TIMEOUT_MS / 1000`). -/
def fallbackReason : String :=
  "Backend timeout/unreachable (" ++ toString (BACKEND_TIMEOUT_MS / 1000) ++
    "s). Start: uvicorn main:app --reload --host 127.0.0.1 --port 8000"

/-- The total-failure fallback result of `verifyUrlWithAI`. -/
def fallbackResult (url : String) (now : Nat) : VerificationResult :=
  { url := url, verdict := "UNKNOWN", reason := fallbackReason, timestamp := now }

/-- An endpoint attempt yields a parsed body exactly when the response has
a success status and a readable JSON body; every other case throws inside
the per-endpoint `try` and advances the loop. -/
def parseOutcome : EndpointOutcome → Option ResponseBody
  | EndpointOutcome.fetchFailure => none
  | EndpointOutcome.httpResponse ok body => if ok then body else none

/-- The result built from a parsed body:
`verdict: data.verdict as SafetyVerdict || SafetyVerdict.UNKNOWN` and
`reason: data.reason || "Unable to determine safety."`.  The TypeScript
`as` cast is erased at runtime, so only the JS `||` fallback applies. -/
def buildResult (url : String) (now : Nat) (b : ResponseBody) : VerificationResult :=
  { url := url
    verdict := jsStringOr b.verdict "UNKNOWN"
    reason := jsStringOr b.reason "Unable to determine safety."
    timestamp := now }

/-- One endpoint attempt of the `for … of BACKEND_URLS` loop: `some`
result on the first well-formed response, `none` when the attempt failed
(caught and recorded in `lastError`). -/
def tryEndpoint (url : String) (now : Nat) (o : EndpointOutcome) : Option VerificationResult :=
  (parseOutcome o).map (buildResult url now)

/-- The endpoint loop of `verifyUrlWithAI`: first accepted response wins,
fallback result after exhaustion. -/
def verifyLoop (url : String) (now : Nat) : List EndpointOutcome → VerificationResult
  | [] => fallbackResult url now
  | o :: rest =>
    match tryEndpoint url now o with
    | some r => r
    | none => verifyLoop url now rest

/-- `verifyUrlWithAI url`: the endpoint behaviours are an input assigning
each configured endpoint its observable outcome. -/
def verifyUrlWithAI (url : String) (now : Nat) (behavior : String → EndpointOutcome) :
    VerificationResult :=
  verifyLoop url now (BACKEND_URLS.map behavior)

/-- Instrumented endpoint loop: additionally records which endpoints were
contacted, in order. -/
def verifyLoopTrace (url : String) (now : Nat) :
    List (String × EndpointOutcome) → VerificationResult × List String
  | [] => (fallbackResult url now, [])
  | (e, o) :: rest =>
    match tryEndpoint url now o with
    | some r => (r, [e])
    | none =>
      let p := verifyLoopTrace url now rest
      (p.1, e :: p.2)

/-- Instrumented `verifyUrlWithAI`. -/
def verifyUrlWithAITrace (url : String) (now : Nat) (behavior : String → EndpointOutcome) :
    VerificationResult × List String :=
  verifyLoopTrace url now (BACKEND_URLS.map (fun e => (e, behavior e)))

/-! ### Command delivery (`src/unnamed/part_003`)

`sendMessageToTab` rejects with `Error(chrome.runtime.lastError.message)`
when the send fails; `safeSendMessage` classifies the message text with
`isNonInjectablePageError` / `isMissingReceiverError`, performs a one-time
injection nudge on the first failed attempt, sleeps
`retryDelayMs * (i + 1)` after each listener-absent failure, and throws
`'Content script is not responding after retries.'` once the attempt
budget is exhausted.

The outcome of the `i`-th send attempt (0-based) is an input
`sends : Nat → SendResult`; sleeps, the attempt count and the injection
nudge are recorded in a `DeliveryTrace`; thrown errors are
`Except.error` values carrying the error message. -/

/-- Outcome of one `chrome.tabs.sendMessage` round-trip: acknowledged, or
failed with a `lastError` message. -/
inductive SendResult where
  | ack : SendResult
  | fail (msg : String) : SendResult
deriving DecidableEq

/-- `isMissingReceiverError` of the background script: the listener-absent
error class. -/
def isMissingReceiverError (message : String) : Bool :=
  strContains message "Receiving end does not exist" ||
    strContains message "Could not establish connection"

/-- `isNonInjectablePageError` of the background script: the
scope-ineligible error class (the page cannot host a content script). -/
def isNonInjectablePageError (message : String) : Bool :=
  strContains message "Cannot access contents of the page" ||
    strContains message "The extensions gallery cannot be scripted" ||
    strContains message "chrome://" ||
    strContains message "No tab with id"

/-- The message of the error thrown after the retry budget is exhausted. -/
def notRespondingMsg : String := "Content script is not responding after retries."

/-- The message prefix of the error thrown on a scope-ineligible failure
(template literal `Unable to message this page: ...`). -/
def ineligibleTag : String := "Unable to message this page: "

/-- The message prefix of the error thrown on an unclassified failure
(template literal `Failed to send message: ...`). -/
def failedSendTag : String := "Failed to send message: "

/-- Instrumentation of one `safeSendMessage` call: how many send attempts
ran, which sleeps were performed (in order), and whether the one-time
injection nudge fired. -/
structure DeliveryTrace where
  attempts : Nat
  delays : List Nat
  injected : Bool
deriving DecidableEq

/-- The retry loop of `safeSendMessage`, from attempt index `i` with `r`
attempts remaining.  Branch order matches the `catch` block: the
scope-ineligible check throws first; the injection nudge runs only on
attempt index 0 (its own errors are ignored); an unclassified error then
throws; a listener-absent error sleeps `delayMs * (i + 1)` and retries. -/
def safeSendAux (sends : Nat → SendResult) (delayMs : Nat) :
    Nat → Nat → Except String Unit × DeliveryTrace
  | _, 0 => (Except.error notRespondingMsg, ⟨0, [], false⟩)
  | i, r + 1 =>
    match sends i with
    | SendResult.ack => (Except.ok (), ⟨1, [], false⟩)
    | SendResult.fail m =>
      if isNonInjectablePageError m then
        (Except.error (ineligibleTag ++ m), ⟨1, [], false⟩)
      else
        let inj := i == 0
        if !(isMissingReceiverError m) then
          (Except.error (failedSendTag ++ m), ⟨1, [], inj⟩)
        else
          let rest := safeSendAux sends delayMs (i + 1) r
          (rest.1, ⟨rest.2.attempts + 1, delayMs * (i + 1) :: rest.2.delays,
            inj || rest.2.injected⟩)

/-- `safeSendMessage(tabId, message, retries, frameId, retryDelayMs)`:
the loop starts at attempt index 0 with the full budget.  (`tabId`,
`message` and `frameId` are absorbed into `sends`, which gives the
outcome of each attempt against the addressed scope.) -/
def safeSendMessage (sends : Nat → SendResult) (retries delayMs : Nat) :
    Except String Unit × DeliveryTrace :=
  safeSendAux sends delayMs 0 retries

/-- The linear sleep schedule produced by the retry loop started at
attempt index `i` with `r` failing attempts remaining. -/
def linearDelays (delayMs : Nat) : Nat → Nat → List Nat
  | _, 0 => []
  | i, r + 1 => delayMs * (i + 1) :: linearDelays delayMs (i + 1) r

/-- `true` exactly on `Except.ok`. -/
def isOkE (e : Except String Unit) : Bool :=
  match e with
  | Except.ok _ => true
  | Except.error _ => false

/-- `sendWithFrameFallback(tabId, message, frameId)`: deliver with the
scope as given (attempt budget 4, default 300ms base backoff); when
`frameId` was supplied and the first delivery threw, retry once with the
frame cleared; all failures become a `false` return.  `env` gives the
send outcomes per addressed frame target; the second component records
the frame targets tried, in order. -/
def sendWithFrameFallback (env : Option Nat → Nat → SendResult) (frameId : Option Nat) :
    Bool × List (Option Nat) :=
  match (safeSendMessage (env frameId) 4 300).1 with
  | Except.ok _ => (true, [frameId])
  | Except.error _ =>
    match frameId with
    | some f =>
      match (safeSendMessage (env none) 4 300).1 with
      | Except.ok _ => (true, [some f, none])
      | Except.error _ => (false, [some f, none])
    | none => (false, [frameId])

/-- `sendStartWithFastRetry(tabId, frameId)`: the `VERIFICATION_START`
notification, attempt budget 2 and 60ms base backoff, with the same
frame-clearing fallback, all failures becoming `false`. -/
def sendStartWithFastRetry (env : Option Nat → Nat → SendResult) (frameId : Option Nat) : Bool :=
  match (safeSendMessage (env frameId) 2 60).1 with
  | Except.ok _ => true
  | Except.error _ =>
    match frameId with
    | some _ =>
      match (safeSendMessage (env none) 2 60).1 with
      | Except.ok _ => true
      | Except.error _ => false
    | none => false

/-! ### Activation (`ensureContentScriptInjected`, `src/unnamed/part_003`) -/

/-- A `chrome.scripting` injection target: the whole tab (`{ tabId }`,
which injects the top-level frame) or one specific frame
(`{ tabId, frameIds: [frameId] }`). -/
inductive ScriptTarget where
  | wholeTab : ScriptTarget
  | frame (frameId : Nat) : ScriptTarget
deriving DecidableEq

/-- `ensureContentScriptInjected(tabId, frameId)`: always injects the
top-level target, adds the requested frame only when a numeric frame id
other than 0 was supplied, and swallows every injection error, logging a
warning only for errors that are not of the non-injectable-page class.
`injectEnv` gives each target's injection outcome (`some msg` = the
`executeScript` call rejected with `msg`).  Returns the targets injected
and the warnings logged. -/
def ensureContentScriptInjected (injectEnv : ScriptTarget → Option String)
    (frameId : Option Nat) : List ScriptTarget × List String :=
  let targets : List ScriptTarget :=
    match frameId with
    | some f => if f ≠ 0 then [ScriptTarget.wholeTab, ScriptTarget.frame f]
                else [ScriptTarget.wholeTab]
    | none => [ScriptTarget.wholeTab]
  (targets, targets.filterMap (fun t =>
    match injectEnv t with
    | none => none
    | some msg =>
      if isNonInjectablePageError msg then none
      else some ("LinkClick injection warning: " ++ msg)))

/-! ### Orchestrator (`chrome.contextMenus.onClicked` listener)

Two source variants exist: the current one in `src/unnamed/part_003`
(inject, fast start notification, verify, frame-fallback result delivery)
and the older one in `src/unnamed/part_001` (bare `safeSendMessage` calls
for both commands inside one `try`). -/

/-- Eligibility guard on the originating tab:
`!tab.url || !(tab.url.startsWith('http://') || tab.url.startsWith('https://'))`
skips the run (an absent or empty `tab.url` is falsy). -/
def isEligibleTab (tabUrl : Option String) : Bool :=
  match tabUrl with
  | none => false
  | some u => !(u == "") && (jsStartsWith u "http://" || jsStartsWith u "https://")

/-- Observable record of one run of the part_003 orchestrator. -/
structure RunTrace where
  skipped : Bool
  injectedTargets : List ScriptTarget
  startDelivered : Option Bool
  verifyCalled : Bool
  verdict : Option VerificationResult
  resultDelivered : Option Bool
deriving DecidableEq

/-- The trace of a run that stopped at one of the guards. -/
def skippedRun : RunTrace :=
  { skipped := true, injectedTargets := [], startDelivered := none,
    verifyCalled := false, verdict := none, resultDelivered := none }

/-- The `chrome.contextMenus.onClicked` listener of `src/unnamed/part_003`:
guard on menu-item id, truthy `info.linkUrl` and truthy `tab?.id`; guard on
an http/https `tab.url`; then inject, send the start notice, verify, and
deliver the result with frame fallback.  Every step is modelled by the
total functions above (each swallows its own errors), so the run is total;
the outer `try`/`catch` never re-raises in any case. -/
def contextMenuClick (menuItemId : String) (linkUrl : Option String)
    (tabId : Option Nat) (tabUrl : Option String) (frameId : Option Nat)
    (injectEnv : ScriptTarget → Option String)
    (startEnv resultEnv : Option Nat → Nat → SendResult)
    (behavior : String → EndpointOutcome) (now : Nat) : RunTrace :=
  if (menuItemId == "verify-link-shield") && jsTruthyStr linkUrl && jsTruthyNat tabId then
    if isEligibleTab tabUrl then
      let inj := ensureContentScriptInjected injectEnv frameId
      let started := sendStartWithFastRetry startEnv frameId
      let result := verifyUrlWithAI (linkUrl.getD "") now behavior
      let delivered := sendWithFrameFallback resultEnv frameId
      { skipped := false, injectedTargets := inj.1, startDelivered := some started,
        verifyCalled := true, verdict := some result,
        resultDelivered := some delivered.1 }
    else skippedRun
  else skippedRun

/-- Observable record of one run of the older part_001 orchestrator. -/
structure RunTraceV1 where
  skipped : Bool
  verifyCalled : Bool
  verdict : Option VerificationResult
  resultSent : Bool
  caughtError : Option String
deriving DecidableEq

/-- The part_001 trace of a run stopped at a guard. -/
def skippedRunV1 : RunTraceV1 :=
  { skipped := true, verifyCalled := false, verdict := none,
    resultSent := false, caughtError := none }

/-- The `chrome.contextMenus.onClicked` listener of `src/unnamed/part_001`:
same guards, but both commands go through bare `safeSendMessage` (budget 4,
300ms) inside a single `try`, whose `catch` only logs.  An error thrown by
the start-command delivery therefore skips the `verifyUrlWithAI` call. -/
def contextMenuClickV1 (menuItemId : String) (linkUrl : Option String)
    (tabId : Option Nat) (tabUrl : Option String)
    (startEnv resultEnv : Nat → SendResult)
    (behavior : String → EndpointOutcome) (now : Nat) : RunTraceV1 :=
  if (menuItemId == "verify-link-shield") && jsTruthyStr linkUrl && jsTruthyNat tabId then
    if isEligibleTab tabUrl then
      match (safeSendMessage startEnv 4 300).1 with
      | Except.error e =>
        { skipped := false, verifyCalled := false, verdict := none,
          resultSent := false, caughtError := some e }
      | Except.ok _ =>
        let r := verifyUrlWithAI (linkUrl.getD "") now behavior
        match (safeSendMessage resultEnv 4 300).1 with
        | Except.error e =>
          { skipped := false, verifyCalled := true, verdict := some r,
            resultSent := false, caughtError := some e }
        | Except.ok _ =>
          { skipped := false, verifyCalled := true, verdict := some r,
            resultSent := true, caughtError := none }
    else skippedRunV1
  else skippedRunV1

/-! ### Content-script activation guard (`src/content.js`)

`initShieldContentScript` is an IIFE guarded by
`window.__shieldContentScriptReady`.  A first run registers the
`chrome.runtime.onMessage` listener, ensures the overlay root exists and
hides it (`hideRoot` clears its HTML); any later run returns at the
guard.  Redundant injection by `ensureContentScriptInjected` or the
`safeSendMessage` nudge re-runs exactly this function. -/

/-- The window state touched by `initShieldContentScript`. -/
structure PageState where
  ready : Bool
  listeners : Nat
  hasRoot : Bool
  rootVisible : Bool
  rootHtml : String
deriving DecidableEq

/-- One run of the content-script IIFE on the current window state. -/
def initShieldContentScript (s : PageState) : PageState :=
  if s.ready then s
  else
    { ready := true, listeners := s.listeners + 1, hasRoot := true,
      rootVisible := false, rootHtml := "" }

/-! ### Helper lemmas on the verdict client -/

/-- The endpoint loop returns the first accepted response, or the fallback
result after exhaustion. -/
theorem verifyLoop_eq_findSome (url : String) (now : Nat) (l : List EndpointOutcome) :
    verifyLoop url now l =
      match l.findSome? (tryEndpoint url now) with
      | some r => r
      | none => fallbackResult url now := by
  induction l with
  | nil => rfl
  | cons o rest ih =>
    rw [List.findSome?_cons]
    cases h : tryEndpoint url now o with
    | some r => simp [verifyLoop, h]
    | none => simp [verifyLoop, h, ih]

/-- The first accepted response is the first parseable body, fed through
`buildResult`. -/
theorem findSome?_comp_map (url : String) (now : Nat) (l : List EndpointOutcome) :
    l.findSome? (tryEndpoint url now) = (l.findSome? parseOutcome).map (buildResult url now) := by
  induction l with
  | nil => rfl
  | cons o rest ih =>
    rw [List.findSome?_cons, List.findSome?_cons]
    cases h : parseOutcome o with
    | some b => simp [tryEndpoint, h]
    | none => simp [tryEndpoint, h, ih]

/-- The instrumented loop computes the same result as the plain loop. -/
theorem verifyLoopTrace_fst (url : String) (now : Nat) (l : List (String × EndpointOutcome)) :
    (verifyLoopTrace url now l).1 = verifyLoop url now (l.map Prod.snd) := by
  induction l with
  | nil => rfl
  | cons p rest ih =>
    obtain ⟨e, o⟩ := p
    cases h : tryEndpoint url now o with
    | some r => simp [verifyLoopTrace, verifyLoop, h]
    | none => simp [verifyLoopTrace, verifyLoop, h, ih]

/-- The instrumented loop contacts exactly the endpoints up to and
including the first accepted one (all of them when none is accepted). -/
theorem verifyLoopTrace_contacts (url : String) (now : Nat)
    (l : List (String × EndpointOutcome)) :
    (verifyLoopTrace url now l).2 =
      (l.map Prod.fst).take
        (l.findIdx (fun p => (tryEndpoint url now p.2).isSome) + 1) := by
  induction l with
  | nil => rfl
  | cons p rest ih =>
    obtain ⟨e, o⟩ := p
    rw [List.map_cons, List.findIdx_cons]
    cases h : tryEndpoint url now o with
    | some r => simp [verifyLoopTrace, h]
    | none => simp [verifyLoopTrace, h, ih, List.take_succ_cons]

/-- `findIdx` commutes with `map`. -/
theorem findIdx_map_local {α β : Type} (g : α → β) (p : β → Bool) (l : List α) :
    (l.map g).findIdx p = l.findIdx (fun a => p (g a)) := by
  induction l with
  | nil => rfl
  | cons a rest ih => rw [List.map_cons, List.findIdx_cons, List.findIdx_cons, ih]

/-- `findSome?` commutes with `map`. -/
theorem findSome?_map_local {α β γ : Type} (g : α → β) (f : β → Option γ) (l : List α) :
    (l.map g).findSome? f = l.findSome? (fun a => f (g a)) := by
  induction l with
  | nil => rfl
  | cons a rest ih => rw [List.map_cons, List.findSome?_cons, List.findSome?_cons, ih]

/-! ### Helper lemmas on string containment and the retry loop -/

/-- Every haystack starts with the empty needle. -/
theorem startsWithList_nil (h : List Char) : startsWithList h [] = true := by
  cases h <;> rfl

/-- A needle keeps matching at the front after extending the haystack. -/
theorem startsWithList_append_right (n : List Char) :
    ∀ (h extra : List Char), startsWithList h n = true →
      startsWithList (h ++ extra) n = true := by
  induction n with
  | nil => intro h extra _; exact startsWithList_nil _
  | cons b bs ih =>
    intro h extra hs
    cases h with
    | nil => simp [startsWithList] at hs
    | cons a as =>
      rw [List.cons_append]
      rw [show startsWithList (a :: as) (b :: bs) =
        (a == b && startsWithList as bs) from rfl] at hs
      rw [show startsWithList (a :: (as ++ extra)) (b :: bs) =
        (a == b && startsWithList (as ++ extra) bs) from rfl]
      rcases Bool.and_eq_true_iff.mp hs with ⟨h1, h2⟩
      exact Bool.and_eq_true_iff.mpr ⟨h1, ih as extra h2⟩

/-- The empty needle is contained in every haystack. -/
theorem containsList_nil (l : List Char) : containsList [] l = true := by
  cases l <;> simp [containsList, startsWithList]

/-- Containment survives extending the haystack on the right. -/
theorem containsList_append_left (n : List Char) :
    ∀ (h extra : List Char), containsList n h = true →
      containsList n (h ++ extra) = true := by
  intro h
  induction h with
  | nil =>
    intro extra hc
    have hn : n = [] := by
      cases n with
      | nil => rfl
      | cons c cs => simp [containsList] at hc
    rw [hn, List.nil_append]
    exact containsList_nil extra
  | cons c rest ih =>
    intro extra hc
    rw [List.cons_append]
    rw [show containsList n (c :: rest) =
      (startsWithList (c :: rest) n || containsList n rest) from rfl] at hc
    rw [show containsList n (c :: (rest ++ extra)) =
      (startsWithList (c :: (rest ++ extra)) n || containsList n (rest ++ extra)) from rfl]
    rcases Bool.or_eq_true_iff.mp hc with h1 | h2
    · exact Bool.or_eq_true_iff.mpr (Or.inl
        (by rw [← List.cons_append]; exact startsWithList_append_right n (c :: rest) extra h1))
    · exact Bool.or_eq_true_iff.mpr (Or.inr (ih extra h2))

/-- `strContains` survives appending to the haystack. -/
theorem strContains_append_left (t m needle : String)
    (h : strContains t needle = true) : strContains (t ++ m) needle = true := by
  show containsList needle.toList (t ++ m).toList = true
  have hd : (t ++ m).toList = t.toList ++ m.toList := String.data_append t m
  rw [hd]
  exact containsList_append_left needle.toList t.toList m.toList h

/-- Closed form of the sleep schedule generated from attempt index `i`. -/
theorem linearDelays_eq_range (d : Nat) :
    ∀ r i, linearDelays d i r = (List.range r).map (fun k => d * (i + k + 1)) := by
  intro r
  induction r with
  | zero => intro i; rfl
  | succ r ih =>
    intro i
    have hstep : linearDelays d i (r + 1) = d * (i + 1) :: linearDelays d (i + 1) r := rfl
    rw [hstep, ih (i + 1), List.range_succ_eq_map, List.map_cons, List.map_map]
    congr 1
    congr 1
    funext k
    show d * (i + 1 + k + 1) = d * (i + (k + 1) + 1)
    ring

/-- The retry loop under a permanently listener-absent scope: every
attempt fails with a missing-receiver error, so the loop consumes the
whole budget, sleeping `delayMs * attemptNumber` after each failed
attempt, nudges injection exactly when the loop started at attempt 0, and
ends with the thrown not-responding error. -/
theorem safeSendAux_all_missing (sends : Nat → SendResult) (delayMs : Nat)
    (h : ∀ j, ∃ m, sends j = SendResult.fail m ∧ isMissingReceiverError m = true ∧
      isNonInjectablePageError m = false) :
    ∀ r i, safeSendAux sends delayMs i r =
      (Except.error notRespondingMsg,
        ⟨r, linearDelays delayMs i r, (i == 0) && !(r == 0)⟩) := by
  intro r
  induction r with
  | zero => intro i; simp [safeSendAux, linearDelays]
  | succ r ih =>
    intro i
    obtain ⟨m, hm1, hm2, hm3⟩ := h i
    rw [show safeSendAux sends delayMs i (r + 1) =
      (match sends i with
       | SendResult.ack => (Except.ok (), ⟨1, [], false⟩)
       | SendResult.fail m =>
         if isNonInjectablePageError m then
           (Except.error (ineligibleTag ++ m), ⟨1, [], false⟩)
         else
           let inj := i == 0
           if !(isMissingReceiverError m) then
             (Except.error (failedSendTag ++ m), ⟨1, [], inj⟩)
           else
             let rest := safeSendAux sends delayMs (i + 1) r
             (rest.1, ⟨rest.2.attempts + 1, delayMs * (i + 1) :: rest.2.delays,
               inj || rest.2.injected⟩)) from rfl]
    rw [hm1]
    simp only [hm3, hm2, Bool.false_eq_true, if_false, Bool.not_true, ih (i + 1)]
    refine congrArg (Prod.mk (Except.error notRespondingMsg)) ?_
    have hinj : ((i == 0) || ((i + 1 == 0) && !(r == 0))) = ((i == 0) && !(r + 1 == 0)) := by
      have : (i + 1 == 0) = false := by simp
      rw [this]
      simp
    rw [show linearDelays delayMs i (r + 1) =
      delayMs * (i + 1) :: linearDelays delayMs (i + 1) r from rfl]
    simp only [hinj]

/-! ### Claims C1-C4 (verdict client) -/

/-- Claim C1: for every url and every behaviour of the configured
endpoints, `verifyUrlWithAI` returns a `VerificationResult` (the embedding
is a total function: every endpoint error is caught inside the loop); in
particular, when every endpoint attempt fails, the returned result is the
fixed fallback: verdict `UNKNOWN` and the reason string that communicates
that the backend is unreachable / timed out. -/
theorem verifyUrlWithAI_total_fallback (url : String) (now : Nat)
    (behavior : String → EndpointOutcome)
    (hfail : ∀ e ∈ BACKEND_URLS, tryEndpoint url now (behavior e) = none) :
    verifyUrlWithAI url now behavior = fallbackResult url now ∧
    (verifyUrlWithAI url now behavior).verdict = "UNKNOWN" ∧
    (verifyUrlWithAI url now behavior).reason = fallbackReason ∧
    strContains (verifyUrlWithAI url now behavior).reason "timeout/unreachable" = true ∧
    (verifyUrlWithAI url now behavior).url = url := by
  have hnone : (BACKEND_URLS.map behavior).findSome? (tryEndpoint url now) = none := by
    rw [findSome?_map_local]
    exact List.findSome?_eq_none_iff.mpr hfail
  have h1 : verifyUrlWithAI url now behavior = fallbackResult url now := by
    rw [verifyUrlWithAI, verifyLoop_eq_findSome, hnone]
  refine ⟨h1, by rw [h1]; rfl, by rw [h1]; rfl, ?_, by rw [h1]; rfl⟩
  rw [h1]
  show strContains fallbackReason "timeout/unreachable" = true
  decide

/-- Counterexample to C2 as stated: an endpoint response with
`verdict: "MALFORMED_VALUE"` is returned verbatim, not coerced to
`UNKNOWN` — the TypeScript `as SafetyVerdict` cast performs no runtime
check, and `"MALFORMED_VALUE" || UNKNOWN` keeps the truthy string. -/
theorem verifyUrlWithAI_malformed_verbatim_cex :
    (verifyUrlWithAI "https://example.com/a" 0
        (fun _ => EndpointOutcome.httpResponse true
          (some { verdict := some "MALFORMED_VALUE", reason := some "model output" }))).verdict
      = "MALFORMED_VALUE" ∧
    ¬ (verifyUrlWithAI "https://example.com/a" 0
        (fun _ => EndpointOutcome.httpResponse true
          (some { verdict := some "MALFORMED_VALUE", reason := some "model output" }))).verdict
      = "UNKNOWN" := by
  decide

/-- Claim C2 (amended): on the first parseable response, a missing (or
present-but-empty, i.e. JS-falsy) `verdict` field is coerced to `UNKNOWN`
and a missing (or empty) `reason` field is replaced by the fixed default
string, but any non-empty `verdict` string — including values outside the
known enum — is returned verbatim. -/
theorem verifyUrlWithAI_accepted_fields (url : String) (now : Nat)
    (behavior : String → EndpointOutcome) (b : ResponseBody)
    (h : (BACKEND_URLS.map behavior).findSome? parseOutcome = some b) :
    verifyUrlWithAI url now behavior = buildResult url now b ∧
    ((b.verdict = none ∨ b.verdict = some "") →
      (verifyUrlWithAI url now behavior).verdict = "UNKNOWN") ∧
    (∀ s, b.verdict = some s → s ≠ "" →
      (verifyUrlWithAI url now behavior).verdict = s) ∧
    ((b.reason = none ∨ b.reason = some "") →
      (verifyUrlWithAI url now behavior).reason = "Unable to determine safety.") ∧
    (∀ s, b.reason = some s → s ≠ "" →
      (verifyUrlWithAI url now behavior).reason = s) := by
  have h1 : verifyUrlWithAI url now behavior = buildResult url now b := by
    rw [verifyUrlWithAI, verifyLoop_eq_findSome, findSome?_comp_map, h]
    rfl
  refine ⟨h1, ?_, ?_, ?_, ?_⟩
  · intro hv; rw [h1]; rcases hv with hv | hv <;> simp [buildResult, jsStringOr, hv]
  · intro s hs hne; rw [h1]; simp [buildResult, jsStringOr, hs, hne]
  · intro hv; rw [h1]; rcases hv with hv | hv <;> simp [buildResult, jsStringOr, hv]
  · intro s hs hne; rw [h1]; simp [buildResult, jsStringOr, hs, hne]

/-- Witness for C2 (amended): a parseable response with both fields
missing yields the `UNKNOWN` verdict and the default reason. -/
theorem verifyUrlWithAI_accepted_fields_witness :
    ((BACKEND_URLS.map (fun _ => EndpointOutcome.httpResponse true
        (some { verdict := none, reason := none }))).findSome? parseOutcome =
      some { verdict := none, reason := none }) ∧
    (verifyUrlWithAI "https://example.com/b" 5
      (fun _ => EndpointOutcome.httpResponse true
        (some { verdict := none, reason := none }))).verdict = "UNKNOWN" ∧
    (verifyUrlWithAI "https://example.com/b" 5
      (fun _ => EndpointOutcome.httpResponse true
        (some { verdict := none, reason := none }))).reason = "Unable to determine safety." :=
  ⟨by decide,
   (verifyUrlWithAI_accepted_fields "https://example.com/b" 5
     (fun _ => EndpointOutcome.httpResponse true (some { verdict := none, reason := none }))
     { verdict := none, reason := none } (by decide)).2.1 (Or.inl rfl),
   (verifyUrlWithAI_accepted_fields "https://example.com/b" 5
     (fun _ => EndpointOutcome.httpResponse true (some { verdict := none, reason := none }))
     { verdict := none, reason := none } (by decide)).2.2.2.1 (Or.inl rfl)⟩

/-- Counterexample to C3 as stated: a parseable, well-formed response
whose own `verdict` field is `"UNKNOWN"` makes the result `UNKNOWN` even
though an endpoint did return a parseable, well-formed response — the
"only if" direction of the claimed equivalence fails. -/
theorem verifyUrlWithAI_unknown_iff_cex :
    ¬ (((verifyUrlWithAI "https://example.com/a" 0
          (fun _ => EndpointOutcome.httpResponse true
            (some { verdict := some "UNKNOWN", reason := some "backend was not sure" }))).verdict
          = "UNKNOWN") ↔
        (∀ o ∈ BACKEND_URLS.map (fun _ => EndpointOutcome.httpResponse true
            (some { verdict := some "UNKNOWN", reason := some "backend was not sure" })),
          parseOutcome o = none)) := by
  decide

/-- Claim C3 (amended): the returned verdict is `UNKNOWN` iff either no
endpoint returned a parseable response, or the first parseable response's
own `verdict` field was missing, empty, or itself the string `"UNKNOWN"`;
and the returned reason string is always non-empty (the fixed explanatory
string on the total-failure fallback path). -/
theorem verifyUrlWithAI_unknown_characterization (url : String) (now : Nat)
    (behavior : String → EndpointOutcome) :
    ((verifyUrlWithAI url now behavior).verdict = "UNKNOWN" ↔
      (match (BACKEND_URLS.map behavior).findSome? parseOutcome with
       | none => True
       | some b => jsStringOr b.verdict "UNKNOWN" = "UNKNOWN")) ∧
    (verifyUrlWithAI url now behavior).reason ≠ "" := by
  have h1 : verifyUrlWithAI url now behavior =
      match (BACKEND_URLS.map behavior).findSome? parseOutcome with
      | some b => buildResult url now b
      | none => fallbackResult url now := by
    rw [verifyUrlWithAI, verifyLoop_eq_findSome, findSome?_comp_map]
    cases (BACKEND_URLS.map behavior).findSome? parseOutcome <;> rfl
  rw [h1]
  cases hfs : (BACKEND_URLS.map behavior).findSome? parseOutcome with
  | none =>
    refine ⟨by simp [fallbackResult], ?_⟩
    show fallbackReason ≠ ""
    decide
  | some b =>
    refine ⟨by simp [buildResult], ?_⟩
    show jsStringOr b.reason "Unable to determine safety." ≠ ""
    rcases b.reason with _ | s
    · decide
    · by_cases hs : s = "" <;> simp [jsStringOr, hs]

/-- Witness for C3 (amended), instantiated at a total-failure behaviour:
the reason string is non-empty. -/
theorem verifyUrlWithAI_unknown_characterization_witness :
    (verifyUrlWithAI "https://example.org/c" 7 (fun _ => EndpointOutcome.fetchFailure)).reason ≠ "" :=
  (verifyUrlWithAI_unknown_characterization "https://example.org/c" 7
    (fun _ => EndpointOutcome.fetchFailure)).2

/-- Claim C4: `verifyUrlWithAI` contacts the configured endpoints strictly
in list order, advancing past each failed endpoint without retrying it:
the contacted endpoints are exactly the prefix of `BACKEND_URLS` up to and
including the first accepted one (all of them when every attempt fails),
and the result is the first accepted response (the fallback otherwise), so
no endpoint after the first successful one is ever contacted. -/
theorem verifyUrlWithAI_endpoint_order (url : String) (now : Nat)
    (behavior : String → EndpointOutcome) :
    (verifyUrlWithAITrace url now behavior).2 =
      BACKEND_URLS.take
        (BACKEND_URLS.findIdx (fun e => (tryEndpoint url now (behavior e)).isSome) + 1) ∧
    (verifyUrlWithAITrace url now behavior).1 = verifyUrlWithAI url now behavior ∧
    (verifyUrlWithAITrace url now behavior).1 =
      (match BACKEND_URLS.findSome? (fun e => tryEndpoint url now (behavior e)) with
       | some r => r
       | none => fallbackResult url now) := by
  refine ⟨?_, ?_, ?_⟩
  · rw [verifyUrlWithAITrace, verifyLoopTrace_contacts, findIdx_map_local, List.map_map]
    have hc : (Prod.fst ∘ fun e : String => (e, behavior e)) = id := rfl
    rw [hc, List.map_id]
  · rw [verifyUrlWithAITrace, verifyLoopTrace_fst, List.map_map]
    rfl
  · rw [verifyUrlWithAITrace, verifyLoopTrace_fst, List.map_map]
    show verifyLoop url now (BACKEND_URLS.map behavior) = _
    rw [verifyLoop_eq_findSome, findSome?_map_local]

/-- Witness for C4, at the spec's P1 scenario: endpoint A fails, endpoint
B succeeds with `SAFE`; both were contacted in order and the result is
B's. -/
theorem verifyUrlWithAI_endpoint_order_witness :
    (verifyUrlWithAITrace "https://example.com/p1" 3
      (fun e => if e = "http://127.0.0.1:8000/analyze" then EndpointOutcome.fetchFailure
                else EndpointOutcome.httpResponse true
                  (some { verdict := some "SAFE", reason := some "clean" }))).2 =
      BACKEND_URLS.take
        (BACKEND_URLS.findIdx (fun e =>
          (tryEndpoint "https://example.com/p1" 3
            ((fun e => if e = "http://127.0.0.1:8000/analyze" then EndpointOutcome.fetchFailure
                       else EndpointOutcome.httpResponse true
                         (some { verdict := some "SAFE", reason := some "clean" })) e)).isSome) + 1) :=
  (verifyUrlWithAI_endpoint_order "https://example.com/p1" 3
    (fun e => if e = "http://127.0.0.1:8000/analyze" then EndpointOutcome.fetchFailure
              else EndpointOutcome.httpResponse true
                (some { verdict := some "SAFE", reason := some "clean" }))).1

/-! ### Claims C5-C7 (command delivery) -/

/-- Counterexample to C5 as stated: after exhausting its attempt budget
against a permanently listener-absent scope, `safeSendMessage` does not
report failure by returning false — it throws the not-responding error
(line `throw new Error('Content script is not responding after retries.')`),
having made all 3 attempts. -/
theorem safeSendMessage_exhaustion_throws_cex :
    (safeSendMessage (fun _ => SendResult.fail
        "Could not establish connection. Receiving end does not exist.") 3 300).1 =
      Except.error notRespondingMsg ∧
    (safeSendMessage (fun _ => SendResult.fail
        "Could not establish connection. Receiving end does not exist.") 3 300).2.attempts = 3 :=
  ⟨rfl, rfl⟩

/-- Claim C5 (amended): against a scope whose listener never becomes
ready (every send fails with a listener-absent class error),
`safeSendMessage` with attempt budget `retries` performs exactly `retries`
send attempts, sleeping `delayMs × attemptNumber` after each failed
attempt (a strictly increasing, linear schedule whenever `delayMs > 0`),
and after exhausting the budget reports failure by throwing the distinct
not-responding error rather than returning false; the `false` return the
spec describes is produced by its caller `sendWithFrameFallback`, which
catches this throw. -/
theorem safeSendMessage_listener_absent (sends : Nat → SendResult) (retries delayMs : Nat)
    (h : ∀ j, ∃ m, sends j = SendResult.fail m ∧ isMissingReceiverError m = true ∧
      isNonInjectablePageError m = false) :
    (safeSendMessage sends retries delayMs).1 = Except.error notRespondingMsg ∧
    (safeSendMessage sends retries delayMs).2.attempts = retries ∧
    (safeSendMessage sends retries delayMs).2.delays =
      (List.range retries).map (fun k => delayMs * (k + 1)) ∧
    (0 < delayMs →
      (safeSendMessage sends retries delayMs).2.delays.Pairwise (· < ·)) := by
  have H := safeSendAux_all_missing sends delayMs h retries 0
  have hd : (safeSendMessage sends retries delayMs).2.delays =
      (List.range retries).map (fun k => delayMs * (k + 1)) := by
    show (safeSendAux sends delayMs 0 retries).2.delays = _
    rw [H]
    show linearDelays delayMs 0 retries = _
    rw [linearDelays_eq_range]
    congr 1
    funext k
    show delayMs * (0 + k + 1) = delayMs * (k + 1)
    ring
  refine ⟨?_, ?_, hd, ?_⟩
  · show (safeSendAux sends delayMs 0 retries).1 = _
    rw [H]
  · show (safeSendAux sends delayMs 0 retries).2.attempts = _
    rw [H]
  · intro hpos
    rw [hd]
    exact (List.pairwise_lt_range retries).map _
      (fun a b hab => Nat.mul_lt_mul_of_pos_left (Nat.succ_lt_succ hab) hpos)

/-- Witness for C5 (amended): budget 3, 300ms base backoff, every attempt
failing with the Chrome listener-absent message. -/
theorem safeSendMessage_listener_absent_witness :
    (safeSendMessage (fun _ => SendResult.fail "Receiving end does not exist.") 3 300).1 =
      Except.error notRespondingMsg ∧
    (safeSendMessage (fun _ => SendResult.fail "Receiving end does not exist.") 3 300).2.delays =
      (List.range 3).map (fun k => 300 * (k + 1)) :=
  ⟨(safeSendMessage_listener_absent (fun _ => SendResult.fail "Receiving end does not exist.")
      3 300 (fun _ => ⟨"Receiving end does not exist.", rfl, by decide, by decide⟩)).1,
   (safeSendMessage_listener_absent (fun _ => SendResult.fail "Receiving end does not exist.")
      3 300 (fun _ => ⟨"Receiving end does not exist.", rfl, by decide, by decide⟩)).2.2.1⟩

/-- Claim C6: a send failing with a scope-ineligible class error aborts
that `safeSendMessage` call immediately at whatever attempt it occurs —
one send, no injection nudge, no backoff sleep, no further attempts — and
the surfaced error (`Unable to message this page: …`) is distinguishable
from the listener-absent exhaustion error. -/
theorem safeSendMessage_scope_ineligible (sends : Nat → SendResult) (delayMs : Nat) (m : String)
    (hm : isNonInjectablePageError m = true) :
    (∀ i r, sends i = SendResult.fail m →
      safeSendAux sends delayMs i (r + 1) =
        (Except.error (ineligibleTag ++ m), ⟨1, [], false⟩)) ∧
    (∀ retries, 0 < retries → sends 0 = SendResult.fail m →
      safeSendMessage sends retries delayMs =
        (Except.error (ineligibleTag ++ m), ⟨1, [], false⟩)) ∧
    strContains (ineligibleTag ++ m) "Unable to message this page" = true ∧
    strContains notRespondingMsg "Unable to message this page" = false ∧
    (ineligibleTag ++ m) ≠ notRespondingMsg := by
  have haux : ∀ i r, sends i = SendResult.fail m →
      safeSendAux sends delayMs i (r + 1) =
        (Except.error (ineligibleTag ++ m), ⟨1, [], false⟩) := by
    intro i r hi
    rw [show safeSendAux sends delayMs i (r + 1) =
      (match sends i with
       | SendResult.ack => (Except.ok (), ⟨1, [], false⟩)
       | SendResult.fail m =>
         if isNonInjectablePageError m then
           (Except.error (ineligibleTag ++ m), ⟨1, [], false⟩)
         else
           let inj := i == 0
           if !(isMissingReceiverError m) then
             (Except.error (failedSendTag ++ m), ⟨1, [], inj⟩)
           else
             let rest := safeSendAux sends delayMs (i + 1) r
             (rest.1, ⟨rest.2.attempts + 1, delayMs * (i + 1) :: rest.2.delays,
               inj || rest.2.injected⟩)) from rfl]
    rw [hi]
    simp only [hm, if_true]
  have htag : strContains (ineligibleTag ++ m) "Unable to message this page" = true :=
    strContains_append_left ineligibleTag m "Unable to message this page" (by decide)
  refine ⟨haux, ?_, htag, by decide, ?_⟩
  · intro retries hr h0
    cases retries with
    | zero => omega
    | succ r => exact haux 0 r h0
  · intro heq
    rw [heq] at htag
    exact absurd htag (by decide)

/-- Witness for C6: the Chrome "Cannot access contents of the page" error
on the first attempt of a budget-4 call. -/
theorem safeSendMessage_scope_ineligible_witness :
    safeSendMessage (fun _ => SendResult.fail "Cannot access contents of the page.") 4 300 =
      (Except.error (ineligibleTag ++ "Cannot access contents of the page."),
        ⟨1, [], false⟩) :=
  (safeSendMessage_scope_ineligible
    (fun _ => SendResult.fail "Cannot access contents of the page.") 300
    "Cannot access contents of the page." (by decide)).2.1 4 (by decide) rfl

/-- Claim C7: `sendWithFrameFallback` first delivers to the scope as
given; when a frame id was supplied and that delivery failed (either
failure class — any thrown error), it retries exactly once against the
same tab with the frame id cleared, returning true iff that retry
succeeds; with no frame id it returns false after the single failed
delivery; in every case the targets contacted are exactly as described
and no failure is re-raised (the function is Bool-valued and total). -/
theorem sendWithFrameFallback_fallback_once (env : Option Nat → Nat → SendResult)
    (frameId : Option Nat) :
    (isOkE (safeSendMessage (env frameId) 4 300).1 = true →
      sendWithFrameFallback env frameId = (true, [frameId])) ∧
    (∀ f, frameId = some f → isOkE (safeSendMessage (env frameId) 4 300).1 = false →
      sendWithFrameFallback env frameId =
        (isOkE (safeSendMessage (env none) 4 300).1, [some f, none])) ∧
    (frameId = none → isOkE (safeSendMessage (env frameId) 4 300).1 = false →
      sendWithFrameFallback env frameId = (false, [frameId])) := by
  refine ⟨?_, ?_, ?_⟩
  · intro hok
    unfold sendWithFrameFallback
    cases h1 : (safeSendMessage (env frameId) 4 300).1 with
    | ok u => rfl
    | error e => rw [h1] at hok; simp [isOkE] at hok
  · intro f hf hfail
    subst hf
    unfold sendWithFrameFallback
    cases h1 : (safeSendMessage (env (some f)) 4 300).1 with
    | ok u => rw [h1] at hfail; simp [isOkE] at hfail
    | error e =>
      cases h2 : (safeSendMessage (env none) 4 300).1 with
      | ok u => simp [h2, isOkE]
      | error e2 => simp [h2, isOkE]
  · intro hf hfail
    subst hf
    unfold sendWithFrameFallback
    cases h1 : (safeSendMessage (env none) 4 300).1 with
    | ok u => rw [h1] at hfail; simp [isOkE] at hfail
    | error e => rfl

/-- Witness for C7: a sub-frame scope that is permanently listener-absent
while the top-level scope acknowledges at once — the fallback delivery
succeeds, after contacting the sub-frame and then the top frame. -/
theorem sendWithFrameFallback_fallback_once_witness :
    sendWithFrameFallback
      (fun fr : Option Nat => match fr with
        | some _ => fun _ => SendResult.fail "Could not establish connection"
        | none => fun _ => SendResult.ack)
      (some 5) =
      (isOkE (safeSendMessage
        ((fun fr : Option Nat => match fr with
          | some _ => fun _ => SendResult.fail "Could not establish connection"
          | none => fun _ => SendResult.ack) none) 4 300).1, [some 5, none]) :=
  (sendWithFrameFallback_fallback_once
    (fun fr : Option Nat => match fr with
      | some _ => fun _ => SendResult.fail "Could not establish connection"
      | none => fun _ => SendResult.ack)
    (some 5)).2.1 5 rfl (by decide)

/-- Witness for C1: both endpoints failing with a connection error /
timeout yields the fallback result. -/
theorem verifyUrlWithAI_total_fallback_witness :
    (∀ e ∈ BACKEND_URLS,
      tryEndpoint "https://example.com/a" 0 ((fun _ => EndpointOutcome.fetchFailure) e) = none) ∧
    verifyUrlWithAI "https://example.com/a" 0 (fun _ => EndpointOutcome.fetchFailure) =
      fallbackResult "https://example.com/a" 0 :=
  ⟨by decide, (verifyUrlWithAI_total_fallback "https://example.com/a" 0
    (fun _ => EndpointOutcome.fetchFailure) (by decide)).1⟩

/-! ### Claims C8-C10 (orchestrator, activation) -/

/-- Counterexample to C8 as stated: in the older orchestrator variant
(`src/unnamed/part_001`), a start-command delivery that fails with the
scope-ineligible class throws into the single outer catch — the error is
caught and logged, but `verifyUrlWithAI` (step 4) is never attempted. -/
theorem contextMenuClickV1_start_failure_skips_verify_cex :
    (contextMenuClickV1 "verify-link-shield" (some "https://a.com/x") (some 3)
        (some "https://a.com")
        (fun _ => SendResult.fail "Cannot access contents of the page")
        (fun _ => SendResult.ack)
        (fun _ => EndpointOutcome.fetchFailure) 0).verifyCalled = false ∧
    (contextMenuClickV1 "verify-link-shield" (some "https://a.com/x") (some 3)
        (some "https://a.com")
        (fun _ => SendResult.fail "Cannot access contents of the page")
        (fun _ => SendResult.ack)
        (fun _ => EndpointOutcome.fetchFailure) 0).caughtError =
      some (ineligibleTag ++ "Cannot access contents of the page") ∧
    (contextMenuClickV1 "verify-link-shield" (some "https://a.com/x") (some 3)
        (some "https://a.com")
        (fun _ => SendResult.fail "Cannot access contents of the page")
        (fun _ => SendResult.ack)
        (fun _ => EndpointOutcome.fetchFailure) 0).skipped = false := by
  decide

/-- Claim C8 (amended): in the current orchestrator
(`src/unnamed/part_003`), for every eligible trigger (http/https tab) the
run is total — every activation, start-delivery and result-delivery error
is absorbed by the step functions themselves (each is `Bool`/list valued)
— and `verifyUrlWithAI` is attempted no matter how activation or the
start-command delivery behave, including everything failing with the
scope-ineligible class.  (In the older `src/unnamed/part_001` variant the
failure is still caught and logged at the boundary, but a start-delivery
throw aborts before step 4 — see the counterexample.) -/
theorem contextMenuClick_always_verifies (linkUrl : String) (tabId : Nat) (tabUrl : String)
    (frameId : Option Nat) (injectEnv : ScriptTarget → Option String)
    (startEnv resultEnv : Option Nat → Nat → SendResult)
    (behavior : String → EndpointOutcome) (now : Nat)
    (hlink : linkUrl ≠ "") (htab : tabId ≠ 0)
    (hurl : (jsStartsWith tabUrl "http://" || jsStartsWith tabUrl "https://") = true) :
    (contextMenuClick "verify-link-shield" (some linkUrl) (some tabId) (some tabUrl) frameId
        injectEnv startEnv resultEnv behavior now).verifyCalled = true ∧
    (contextMenuClick "verify-link-shield" (some linkUrl) (some tabId) (some tabUrl) frameId
        injectEnv startEnv resultEnv behavior now).verdict =
      some (verifyUrlWithAI linkUrl now behavior) ∧
    (contextMenuClick "verify-link-shield" (some linkUrl) (some tabId) (some tabUrl) frameId
        injectEnv startEnv resultEnv behavior now).skipped = false := by
  have hne : tabUrl ≠ "" := by
    intro he
    rw [he] at hurl
    exact absurd hurl (by decide)
  have h0 : (linkUrl == "") = false := beq_eq_false_iff_ne.mpr hlink
  have ht0 : (tabId == 0) = false := beq_eq_false_iff_ne.mpr htab
  have hu0 : (tabUrl == "") = false := beq_eq_false_iff_ne.mpr hne
  have hcond : (("verify-link-shield" == "verify-link-shield") &&
      jsTruthyStr (some linkUrl) && jsTruthyNat (some tabId)) = true := by
    simp [jsTruthyStr, jsTruthyNat, h0, ht0]
  have heli : isEligibleTab (some tabUrl) = true := by
    simp [isEligibleTab, hu0, hurl]
  refine ⟨?_, ?_, ?_⟩ <;> simp [contextMenuClick, hcond, heli, jsTruthyStr, jsTruthyNat,
    h0, ht0, isEligibleTab, hu0, hurl]

/-- Witness for C8 (amended): an eligible tab where activation and both
deliveries fail with the scope-ineligible class everywhere — verification
still runs. -/
theorem contextMenuClick_always_verifies_witness :
    (contextMenuClick "verify-link-shield" (some "https://example.com/link") (some 7)
        (some "https://example.com") (some 4)
        (fun _ => some "Cannot access contents of the page")
        (fun _ _ => SendResult.fail "Cannot access contents of the page")
        (fun _ _ => SendResult.fail "Cannot access contents of the page")
        (fun _ => EndpointOutcome.fetchFailure) 0).verifyCalled = true :=
  (contextMenuClick_always_verifies "https://example.com/link" 7 "https://example.com"
    (some 4)
    (fun _ => some "Cannot access contents of the page")
    (fun _ _ => SendResult.fail "Cannot access contents of the page")
    (fun _ _ => SendResult.fail "Cannot access contents of the page")
    (fun _ => EndpointOutcome.fetchFailure) 0
    (by decide) (by decide) (by decide)).1

/-- Claim C9: activation is idempotent.  If the agent is already active
(`window.__shieldContentScriptReady` set), re-running the content script
is the identity — no new listener registration and no new overlay work —
and running the script twice from any state equals running it once. -/
theorem initShieldContentScript_idempotent (s : PageState) :
    (s.ready = true → initShieldContentScript s = s) ∧
    initShieldContentScript (initShieldContentScript s) = initShieldContentScript s ∧
    (initShieldContentScript (initShieldContentScript s)).listeners =
      (initShieldContentScript s).listeners := by
  refine ⟨?_, ?_, ?_⟩
  · intro hr
    simp [initShieldContentScript, hr]
  · cases hr : s.ready <;> simp [initShieldContentScript, hr]
  · cases hr : s.ready <;> simp [initShieldContentScript, hr]

/-- Witness for C9: on an already-active page state, a redundant
activation is the identity. -/
theorem initShieldContentScript_idempotent_witness :
    ({ ready := true, listeners := 1, hasRoot := true, rootVisible := false,
        rootHtml := "" } : PageState).ready = true ∧
    initShieldContentScript
        { ready := true, listeners := 1, hasRoot := true, rootVisible := false,
          rootHtml := "" } =
      { ready := true, listeners := 1, hasRoot := true, rootVisible := false,
        rootHtml := "" } :=
  ⟨rfl, (initShieldContentScript_idempotent
    { ready := true, listeners := 1, hasRoot := true, rootVisible := false,
      rootHtml := "" }).1 rfl⟩

/-- Claim C10: `ensureContentScriptInjected` always injects the top-level
target of the tab, adds the requested sub-frame target only when a numeric
frame id other than 0 was supplied, and never throws: every injection
error is swallowed, at most logging a warning, and warnings arise only
from errors that are not of the non-injectable-page class. -/
theorem ensureContentScriptInjected_targets (injectEnv : ScriptTarget → Option String)
    (frameId : Option Nat) :
    ((ensureContentScriptInjected injectEnv frameId).1 =
      match frameId with
      | some f => if f ≠ 0 then [ScriptTarget.wholeTab, ScriptTarget.frame f]
                  else [ScriptTarget.wholeTab]
      | none => [ScriptTarget.wholeTab]) ∧
    ((ensureContentScriptInjected injectEnv frameId).1.head? = some ScriptTarget.wholeTab) ∧
    (∀ w ∈ (ensureContentScriptInjected injectEnv frameId).2,
      ∃ t m, injectEnv t = some m ∧ isNonInjectablePageError m = false ∧
        w = "LinkClick injection warning: " ++ m) := by
  refine ⟨rfl, ?_, ?_⟩
  · rcases frameId with _ | f
    · rfl
    · by_cases hf : f = 0 <;> simp [ensureContentScriptInjected, hf]
  · intro w hw
    have he : (ensureContentScriptInjected injectEnv frameId).2 =
        (ensureContentScriptInjected injectEnv frameId).1.filterMap (fun t =>
          match injectEnv t with
          | none => none
          | some msg =>
            if isNonInjectablePageError msg then none
            else some ("LinkClick injection warning: " ++ msg)) := rfl
    rw [he] at hw
    obtain ⟨t, ht, hft⟩ := List.mem_filterMap.mp hw
    cases hmt : injectEnv t with
    | none => rw [hmt] at hft; simp at hft
    | some msg =>
      rw [hmt] at hft
      cases hni : isNonInjectablePageError msg with
      | true => simp [hni] at hft
      | false =>
        simp [hni] at hft
        exact ⟨t, msg, hmt, hni, hft.symm⟩

/-- Witness for C10: a sub-frame request on a page whose every injection
fails with a `chrome://` error — both targets are attempted, and the
non-injectable errors are silently swallowed. -/
theorem ensureContentScriptInjected_targets_witness :
    (ensureContentScriptInjected (fun _ => some "chrome:// pages cannot be scripted")
        (some 3)).1 = [ScriptTarget.wholeTab, ScriptTarget.frame 3] := by
  have h := (ensureContentScriptInjected_targets
    (fun _ => some "chrome:// pages cannot be scripted") (some 3)).1
  rw [h]
  rfl
